import Mathlib

/-!
Shallow embedding of the student-deployer backend
(`backend/k8s.py`, `backend/app.py`, `backend/models.py`, `backend/db.py`).

Conventions:
* Python strings are processed as `List Char` (`String.data`); every parser is
  a total Lean function returning `Option`/`Except`, where `none`/`.error`
  models a raised Python exception.
* Python's `int(x / y)` (true division then truncation toward zero) is
  modelled by `Int.tdiv`, which truncates toward zero.
* Machine floats are modelled as exact decimal rationals; the admission
  check's `float` argument is modelled as `ℚ`.
-/

/-! ## Python numeric-literal parsing (`int(...)`, `float(...)`) -/

/-- Whitespace as stripped by Python's `int`/`float` and `str.strip()`. -/
def isPySpace (c : Char) : Bool := c.isWhitespace

/-- `str.strip()` on a character list. -/
def stripChars (l : List Char) : List Char :=
  ((l.dropWhile isPySpace).reverse.dropWhile isPySpace).reverse

/-- Value of a digit string (must be all digits, checked by callers). -/
def digitsToNat (l : List Char) : Nat :=
  l.foldl (fun acc c => acc * 10 + (c.toNat - 48)) 0

/-- All characters are ASCII digits and the list is nonempty. -/
def isDigits (l : List Char) : Bool := !l.isEmpty && l.all Char.isDigit

/-- Python `int(s)`: optional sign, then decimal digits, surrounding
whitespace allowed.  `none` models a raised `ValueError`.
(Underscore digit separators are outside the modelled input domain.) -/
def pyInt (l : List Char) : Option Int :=
  match stripChars l with
  | '-' :: rest => if isDigits rest then some (-(digitsToNat rest : Int)) else none
  | '+' :: rest => if isDigits rest then some ((digitsToNat rest : Int)) else none
  | rest => if isDigits rest then some ((digitsToNat rest : Int)) else none

/-- Magnitude of a Python float literal: digits with at most one decimal
point, at least one digit overall.  Returns `(numerator, e)` meaning
`numerator / 10 ^ e`.  (Exponent notation and `inf`/`nan` are outside the
modelled input domain.) -/
def pyFloatMag (l : List Char) : Option (Nat × Nat) :=
  let a := l.takeWhile (fun c => c ≠ '.')
  match l.dropWhile (fun c => c ≠ '.') with
  | [] => if isDigits a then some (digitsToNat a, 0) else none
  | _ :: b =>
    if !b.contains '.' && (!a.isEmpty || !b.isEmpty)
        && a.all Char.isDigit && b.all Char.isDigit then
      some (digitsToNat (a ++ b), b.length)
    else none

/-- Python `float(s)` as an exact rational `numerator / 10 ^ e` with the sign
folded into the numerator.  `none` models a raised `ValueError`. -/
def pyFloat (l : List Char) : Option (Int × Nat) :=
  match stripChars l with
  | '-' :: rest => (pyFloatMag rest).map (fun p => (-(p.1 : Int), p.2))
  | '+' :: rest => (pyFloatMag rest).map (fun p => ((p.1 : Int), p.2))
  | rest => (pyFloatMag rest).map (fun p => ((p.1 : Int), p.2))

/-! ## QuantityParser (`k8s.py` `_parse_cpu_to_millicores`,
`_parse_memory_to_mi`, `_parse_storage_to_gi`) -/

/-- `l` ends with the two characters `a` then `b`. -/
def endsWith2 (a b : Char) (l : List Char) : Bool :=
  match l.reverse with
  | c1 :: c2 :: _ => c1 = b && c2 = a
  | _ => false

/-- Drop the last two characters (the unit suffix). -/
def dropLast2 (l : List Char) : List Char := l.dropLast.dropLast

/-- `_parse_cpu_to_millicores` on a character list.
`int(float(s) * 1000)` truncates toward zero: for `float(s) = n / 10 ^ e`
this is `tdiv (n * 1000) (10 ^ e)`. -/
def parseCpuChars (l : List Char) : Option Int :=
  if l = [] || l = ['0'] then some 0
  else if l.getLast? = some 'm' then pyInt l.dropLast
  else match pyFloat l with
    | some (n, e) => some (Int.tdiv (n * 1000) ((10 : Int) ^ e))
    | none => none

/-- `_parse_cpu_to_millicores(cpu_str)`: `''`/`'0'` ↦ 0, trailing `m` ↦
integer prefix, otherwise `int(float(s) * 1000)`. -/
def _parse_cpu_to_millicores (s : String) : Option Int := parseCpuChars s.data

/-- `_parse_memory_to_mi` on a character list: suffix dispatch on
`Ki`/`Mi`/`Gi`/`Ti` after `strip()`, otherwise raw bytes `÷ 1024²`. -/
def parseMemoryChars (l : List Char) : Option Int :=
  if l = [] || l = ['0'] then some 0
  else
    let t := stripChars l
    if endsWith2 'K' 'i' t then (pyInt (dropLast2 t)).map (fun n => Int.tdiv n 1024)
    else if endsWith2 'M' 'i' t then pyInt (dropLast2 t)
    else if endsWith2 'G' 'i' t then (pyInt (dropLast2 t)).map (fun n => n * 1024)
    else if endsWith2 'T' 'i' t then (pyInt (dropLast2 t)).map (fun n => n * (1024 * 1024))
    else (pyInt t).map (fun n => Int.tdiv n (1024 * 1024))

/-- `_parse_memory_to_mi(memory_str)` (result in MiB). -/
def _parse_memory_to_mi (s : String) : Option Int := parseMemoryChars s.data

/-- `_parse_storage_to_gi` on a character list: suffix dispatch on
`Ki`/`Mi`/`Gi`/`Ti` after `strip()`, otherwise raw bytes `÷ 1024³`. -/
def parseStorageChars (l : List Char) : Option Int :=
  if l = [] || l = ['0'] then some 0
  else
    let t := stripChars l
    if endsWith2 'K' 'i' t then (pyInt (dropLast2 t)).map (fun n => Int.tdiv n (1024 * 1024))
    else if endsWith2 'M' 'i' t then (pyInt (dropLast2 t)).map (fun n => Int.tdiv n 1024)
    else if endsWith2 'G' 'i' t then pyInt (dropLast2 t)
    else if endsWith2 'T' 'i' t then (pyInt (dropLast2 t)).map (fun n => n * 1024)
    else (pyInt t).map (fun n => Int.tdiv n (1024 * 1024 * 1024))

/-- `_parse_storage_to_gi(storage_str)` (result in GiB). -/
def _parse_storage_to_gi (s : String) : Option Int := parseStorageChars s.data

/-! ## CapacityAccountant (`k8s.py` `get_cluster_resources`) -/

/-- A cpu/memory/storage triple in canonical units
(millicores, MiB, GiB). -/
structure Triple where
  cpu_millicores : Int
  memory_mi : Int
  storage_gi : Int
deriving Repr, DecidableEq

/-- Component-wise sum. -/
def Triple.add (a b : Triple) : Triple :=
  ⟨a.cpu_millicores + b.cpu_millicores, a.memory_mi + b.memory_mi,
   a.storage_gi + b.storage_gi⟩

/-- Component-wise difference (`available = total - used`). -/
def Triple.sub (a b : Triple) : Triple :=
  ⟨a.cpu_millicores - b.cpu_millicores, a.memory_mi - b.memory_mi,
   a.storage_gi - b.storage_gi⟩

/-- Parse a cpu/memory/ephemeral-storage string triple; `none` models a
propagated `ValueError` from any of the three parsers. -/
def parseTriple (cpu memory storage : String) : Option Triple := do
  let c ← _parse_cpu_to_millicores cpu
  let m ← _parse_memory_to_mi memory
  let s ← _parse_storage_to_gi storage
  pure ⟨c, m, s⟩

/-- `node.status.allocatable` — a key absent from the dict is modelled as the
string `"0"` (the `.get(key, "0")` default). -/
structure NodeAlloc where
  cpu : String
  memory : String
  ephemeral_storage : String
deriving Repr, DecidableEq

/-- `container.resources.requests`; absent keys modelled as `"0"`. -/
structure RequestsMap where
  cpu : String
  memory : String
  ephemeral_storage : String
deriving Repr, DecidableEq

/-- One container: `requests = none` models
`container.resources`/`.requests` being `None`. -/
structure ContainerReq where
  requests : Option RequestsMap
deriving Repr, DecidableEq

/-- One pod as seen by `list_pod_for_all_namespaces` /
`read_namespaced_pod`. -/
structure PodInfo where
  ns : String
  name : String
  phase : String
  containers : List ContainerReq
deriving Repr, DecidableEq

/-- Outcome the API server reports for a creation call. -/
inductive CreateOutcome
  | ok
  | conflict
  | err (msg : String)
deriving Repr, DecidableEq

/-- The cluster as observed through the kubernetes client.
`reachable` models `_ensure_k8s` (and node-list transport) succeeding;
`pod_query_fails` models `read_namespaced_pod` raising a transport/API
exception even after successful client initialization. -/
structure Cluster where
  reachable : Bool
  nodes : List NodeAlloc
  pods : List PodInfo
  pod_query_fails : Bool
  ns_create : CreateOutcome
  pod_create : CreateOutcome
deriving Repr, DecidableEq

/-- The namespaces `get_cluster_resources` skips when summing usage. -/
def skip_namespaces : List String := ["kube-system", "kube-public", "kube-node-lease"]

/-- Requests of a single container (zero when no requests are declared). -/
def containerUsed (c : ContainerReq) : Option Triple :=
  match c.requests with
  | none => some ⟨0, 0, 0⟩
  | some r => parseTriple r.cpu r.memory r.ephemeral_storage

/-- Contribution of one pod to `used`: system namespaces and phases other
than `Running`/`Pending` contribute zero (the `continue` branches). -/
def podUsed (p : PodInfo) : Option Triple :=
  if skip_namespaces.contains p.ns then some ⟨0, 0, 0⟩
  else if p.phase ≠ "Running" && p.phase ≠ "Pending" then some ⟨0, 0, 0⟩
  else p.containers.foldl
    (fun acc c => do Triple.add (← acc) (← containerUsed c)) (some ⟨0, 0, 0⟩)

/-- Sum of `podUsed` over the pod list. -/
def usedSum (pods : List PodInfo) : Option Triple :=
  pods.foldl (fun acc p => do Triple.add (← acc) (← podUsed p)) (some ⟨0, 0, 0⟩)

/-- `{total, used, available}` as returned by `get_cluster_resources`. -/
structure Resources where
  total : Triple
  used : Triple
  available : Triple
deriving Repr, DecidableEq

/-- `get_cluster_resources()`.  `total` is parsed from `nodes[0]` (the source
comments "Single node minikube cluster"); an empty node list raises
`RuntimeError("No nodes found in cluster")`; client initialization failure
raises `RuntimeError` from `_ensure_k8s`. -/
def get_cluster_resources (c : Cluster) : Except String Resources :=
  if !c.reachable then .error "could not load kube config"
  else
    match c.nodes with
    | [] => .error "No nodes found in cluster"
    | node :: _ =>
      match parseTriple node.cpu node.memory node.ephemeral_storage with
      | none => .error "invalid literal"
      | some total =>
        match usedSum c.pods with
        | none => .error "invalid literal"
        | some used => .ok ⟨total, used, total.sub used⟩

/-- Modelled from the spec (for comparison with `get_cluster_resources`):
"List all nodes; sum each node's allocatable `{cpu, memory, storage}` after
parsing — this is `total`." -/
def specTotalAllNodes (nodes : List NodeAlloc) : Option Triple :=
  nodes.foldl
    (fun acc n => do
      Triple.add (← acc) (← parseTriple n.cpu n.memory n.ephemeral_storage))
    (some ⟨0, 0, 0⟩)

/-! ## AdmissionController (`k8s.py` `check_resources_available`) -/

/-- The three resource axes an admission shortfall can name. -/
inductive Axis
  | cpu
  | memory
  | storage
deriving Repr, DecidableEq

/-- `int(cpu_cores * 1000)`: truncation toward zero of the exact rational. -/
def cpuCoresToMillicores (q : ℚ) : Int := Int.tdiv (q.num * 1000) (q.den : Int)

/-- The `issues` list built by `check_resources_available`, with each
formatted issue string abstracted to the axis it names
(cpu, then memory, then storage, appended in source order). -/
def admission_issues (avail : Triple) (cpu_cores : ℚ) (memory_mi storage_gi : Int) :
    List Axis :=
  (if cpuCoresToMillicores cpu_cores > avail.cpu_millicores then [Axis.cpu] else [])
  ++ (if memory_mi > avail.memory_mi then [Axis.memory] else [])
  ++ (if storage_gi > avail.storage_gi then [Axis.storage] else [])

/-- The dict returned by `check_resources_available`: `available`,
`message`, the per-axis issues (folded into the message in the source),
and the `details` payload (`none` models the empty dict `{}` of the
error branch; otherwise it carries the snapshot's available triple). -/
structure ResourceCheck where
  available : Bool
  message : String
  issues : List Axis
  details : Option Triple
deriving Repr, DecidableEq

/-- `check_resources_available(cpu_cores, memory_mi, storage_gi)`:
obtain a fresh snapshot, compare each axis independently, and on any
exception return a structured failure rather than raising. -/
def check_resources_available (c : Cluster) (cpu_cores : ℚ)
    (memory_mi storage_gi : Int) : ResourceCheck :=
  match get_cluster_resources c with
  | .error e =>
    { available := false
      message := "Failed to check cluster resources: " ++ e
      issues := []
      details := none }
  | .ok res =>
    let issues := admission_issues res.available cpu_cores memory_mi storage_gi
    if issues.isEmpty then
      { available := true
        message := "Resources available"
        issues := issues
        details := some res.available }
    else
      { available := false
        message := "Insufficient cluster resources"
        issues := issues
        details := some res.available }

/-! ## Cluster CRUD helpers (`k8s.py`) -/

/-- Error classes the kubernetes helpers can raise:
`runtimeErr` is Python `RuntimeError` (client/config initialization),
`apiErr` is any other exception from an API call (`ApiException`,
transport errors). -/
inductive K8sErr
  | runtimeErr (msg : String)
  | apiErr (msg : String)
deriving Repr, DecidableEq

/-- `get_pod_status(namespace, name)`: reads pod `{name}-pod`, maps a 404
to the string `"Not Found"`, re-raises anything else. -/
def get_pod_status (c : Cluster) (ns nm : String) : Except K8sErr String :=
  if !c.reachable then .error (.runtimeErr "could not load kube config")
  else if c.pod_query_fails then .error (.apiErr "connection error")
  else
    match c.pods.find? (fun p => p.ns = ns && p.name = nm ++ "-pod") with
    | some p => .ok p.phase
    | none => .ok "Not Found"

/-- `create_namespace(namespace_name)`: a 409 Conflict from the API is
swallowed (namespace already exists ⇒ success); other errors re-raise. -/
def create_namespace (c : Cluster) (ns : String) : Except K8sErr Unit :=
  if !c.reachable then .error (.runtimeErr "could not load kube config")
  else
    match c.ns_create with
    | .ok => .ok ()
    | .conflict => .ok ()
    | .err m => .error (.apiErr m)

/-- `create_pod(namespace, name, ...)`: a 409 Conflict is swallowed
(pod already exists ⇒ success); other errors re-raise.  The resource-string
payload of the manifest is not needed by any claim and is not modelled. -/
def create_pod (c : Cluster) (ns nm : String) : Except K8sErr Unit :=
  if !c.reachable then .error (.runtimeErr "could not load kube config")
  else
    match c.pod_create with
    | .ok => .ok ()
    | .conflict => .ok ()
    | .err m => .error (.apiErr m)

/-! ## HTTP endpoints (`app.py`) -/

/-- Externally visible effects of a request handler, in execution order.
`db_save` is `save_or_update_student`, `db_update` is
`update_student_status` (the record store is modelled as infallible). -/
inductive Event
  | admission_check
  | db_save (name status : String)
  | db_update (name status : String) (error : Option String)
  | k8s_get_pod (ns nm : String)
  | k8s_create_ns (ns : String)
  | k8s_create_pod (ns nm : String)
deriving Repr, DecidableEq

/-- `StudentSpec` (`models.py`): numeric inputs from the UI; the pydantic
positivity validators are not needed by any claim. -/
structure StudentSpec where
  name : String
  cpu : ℚ
  memory : Int
  storage : Int
deriving Repr, DecidableEq

/-- A persisted student document, as read back from the record store.
`k8s_cpu`/`k8s_memory` of `none` model a missing `k8s_resources` key
(`.get("cpu")` returning `None`). -/
structure StudentDoc where
  name : String
  status : String
  k8s_cpu : Option String
  k8s_memory : Option String
  k8s_storage : Option String
deriving Repr, DecidableEq

/-- HTTP-level outcome of a handler.  `uncaught` models an exception that
escapes the handler to the framework. -/
inductive HttpResult
  | queued
  | deploying (phase : String)
  | rejected400 (msg : String)
  | conflict409 (msg : String)
  | notFound404
  | err500 (msg : String)
  | err503 (msg : String)
  | uncaught (msg : String)
deriving Repr, DecidableEq

/-- `POST /submit`: admission-check the request, then persist it as
`pending`.  Rejection persists nothing. -/
def submit (c : Cluster) (spec : StudentSpec) : HttpResult × List Event :=
  let rc := check_resources_available c spec.cpu spec.memory spec.storage
  if !rc.available then (.rejected400 rc.message, [.admission_check])
  else (.queued, [.admission_check, .db_save spec.name "pending"])

/-- The shared creation sequence of `deploy`/`deploy_from_db` after the
conflict check: persist-or-update, create namespace + pod (inside `try`),
re-read the phase, and record `deployed`/`failed`. -/
def deployCreate (c : Cluster) (name : String) (ev0 : List Event) :
    HttpResult × List Event :=
  match create_namespace c name with
  | .error e =>
    (.err500 "K8s error", ev0 ++ [.k8s_create_ns name,
      .db_update name "failed" (some (match e with | .runtimeErr m => m | .apiErr m => m))])
  | .ok _ =>
    match create_pod c name name with
    | .error e =>
      (.err500 "K8s error", ev0 ++ [.k8s_create_ns name, .k8s_create_pod name name,
        .db_update name "failed" (some (match e with | .runtimeErr m => m | .apiErr m => m))])
    | .ok _ =>
      match get_pod_status c name name with
      | .error e =>
        (.err500 "K8s error", ev0 ++ [.k8s_create_ns name, .k8s_create_pod name name,
          .k8s_get_pod name name,
          .db_update name "failed" (some (match e with | .runtimeErr m => m | .apiErr m => m))])
      | .ok phase =>
        (.deploying phase, ev0 ++ [.k8s_create_ns name, .k8s_create_pod name name,
          .k8s_get_pod name name, .db_update name "deployed" none])

/-- `POST /deploy`: conflict-check the live pod, persist the spec as
`pending`, then create namespace + pod.  The initial `get_pod_status` is
outside any `try`, so its exceptions escape the handler. -/
def deploy (c : Cluster) (spec : StudentSpec) : HttpResult × List Event :=
  match get_pod_status c spec.name spec.name with
  | .error e =>
    (.uncaught (match e with | .runtimeErr m => m | .apiErr m => m),
     [.k8s_get_pod spec.name spec.name])
  | .ok phase =>
    if phase ≠ "Not Found" then
      (.conflict409 ("Pod already exists with status: " ++ phase),
       [.k8s_get_pod spec.name spec.name])
    else
      deployCreate c spec.name
        [.k8s_get_pod spec.name spec.name, .db_save spec.name "pending"]

/-- Python `str.replace(old, new)` removing every occurrence of `"Gi"`,
on character lists. -/
def removeGi : List Char → List Char
  | 'G' :: 'i' :: rest => removeGi rest
  | c :: rest => c :: removeGi rest
  | [] => []

/-- `POST /deploy-from-db`: read the stored doc, parse its storage string,
conflict-check the pod — catching only `RuntimeError` (unreachable) as a
`pending` + 503 — then create namespace + pod. -/
def deploy_from_db (c : Cluster) (db : List StudentDoc) (name : String) :
    HttpResult × List Event :=
  match db.find? (fun d => d.name = name) with
  | none => (.notFound404, [])
  | some doc =>
    let storage_str := doc.k8s_storage.getD "1Gi"
    match pyInt (removeGi storage_str.data) with
    | none => (.uncaught "invalid literal", [])
    | some _storage_gb =>
      if doc.k8s_cpu.getD "" = "" || doc.k8s_memory.getD "" = "" then
        (.err500 "Stored doc missing k8s_resources.cpu/memory", [])
      else
        match get_pod_status c name name with
        | .error (.runtimeErr e) =>
          (.err503 ("Kubernetes cluster is unreachable. Request saved as pending. Error: " ++ e),
           [.k8s_get_pod name name,
            .db_update name "pending" (some ("Cluster unreachable: " ++ e))])
        | .error (.apiErr e) => (.uncaught e, [.k8s_get_pod name name])
        | .ok phase =>
          if phase ≠ "Not Found" then
            (.conflict409 ("Pod already exists with status: " ++ phase),
             [.k8s_get_pod name name])
          else
            deployCreate c name [.k8s_get_pod name name]

/-- One row of the `GET /admin/students` response. -/
structure OutRecord where
  name : String
  status : String
  live_phase : String
  db_status : String
deriving Repr, DecidableEq

/-- The per-record body of the `admin_students` loop: fetch live phase and
auto-sync the persisted status (the `except Exception` branch treats any
per-record failure as `live_phase = "Not Found"` and fails a pending
record); with the cluster inaccessible, report `"Cluster Down"` and touch
nothing. -/
def syncOne (accessible : Bool) (c : Cluster) (d : StudentDoc) :
    OutRecord × List Event :=
  if accessible then
    match get_pod_status c d.name d.name with
    | .ok phase =>
      if phase = "Running" && d.status = "pending" then
        (⟨d.name, "deployed", phase, "deployed"⟩,
         [.k8s_get_pod d.name d.name, .db_update d.name "deployed" none])
      else if phase = "Not Found" && (d.status = "deployed" || d.status = "pending") then
        (⟨d.name, "failed", phase, "failed"⟩,
         [.k8s_get_pod d.name d.name, .db_update d.name "failed" (some "Pod not found")])
      else
        (⟨d.name, d.status, phase, d.status⟩, [.k8s_get_pod d.name d.name])
    | .error _ =>
      if d.status = "pending" then
        (⟨d.name, "failed", "Not Found", "failed"⟩,
         [.k8s_get_pod d.name d.name,
          .db_update d.name "failed" (some "Cannot check pod status")])
      else
        (⟨d.name, d.status, "Not Found", d.status⟩, [.k8s_get_pod d.name d.name])
  else
    (⟨d.name, d.status, "Cluster Down", d.status⟩, [])

/-- `GET /admin/students`: probe `_ensure_k8s` once, then sync every
record. -/
def admin_students (c : Cluster) (db : List StudentDoc) :
    List OutRecord × List Event :=
  let accessible := c.reachable
  (db.map (fun d => (syncOne accessible c d).1),
   db.flatMap (fun d => (syncOne accessible c d).2))

/-- `true` when the event persists a record or mutates the cluster
(the actions admission must precede). -/
def persistsOrDeploys : Event → Bool
  | .db_save _ _ => true
  | .db_update _ _ _ => true
  | .k8s_create_ns _ => true
  | .k8s_create_pod _ _ => true
  | _ => false

/-- A trace satisfies admission-before-persist: no persisting/deploying
event occurs before the first `admission_check`. -/
def admissionBefore : List Event → Bool
  | [] => true
  | .admission_check :: _ => true
  | e :: rest => !persistsOrDeploys e && admissionBefore rest

/-! ## ForwardSupervisor (`app.py` `pf_start` and helpers) -/

/-- One registry file in `/tmp/student_pf/{name}.json`. -/
structure PFEntry where
  name : String
  pid : Nat
  port : Nat
deriving Repr, DecidableEq

/-- Local OS state: the registry directory and the set of live child
processes (pids of spawned, not-yet-exited `kubectl port-forward`s). -/
structure PFState where
  registry : List PFEntry
  procs : List Nat
deriving Repr, DecidableEq

/-- Environment of one `pf_start` call: the result of the free-port scan
(`none` = range exhausted), the pid `Popen` hands back, and whether the
readiness poll sees the port open before the loop ends. -/
structure PFEnv where
  free_port : Option Nat
  spawn_pid : Nat
  readiness : Bool
deriving Repr, DecidableEq

/-- Outcome of `POST /pf/start`.  `port_exhausted` models the uncaught
`RuntimeError` from `_next_free_port`. -/
inductive PFResult
  | already_forwarding (port : Nat)
  | forwarding (port : Nat)
  | bad_request (msg : String)
  | spawn_failed (msg : String)
  | port_exhausted
deriving Repr, DecidableEq

/-- `pf_start(name, target_port, local_port)`: an existing registry file
short-circuits to `already-forwarding` (its pid is never liveness-checked);
otherwise pick a port, spawn, poll, and either record the session or kill
the child and fail.  (`local_port = 0` being falsy in Python is outside the
modelled domain: ports are positive.) -/
def pf_start (env : PFEnv) (st : PFState) (name : String)
    (local_port : Option Nat) : PFResult × PFState :=
  if name.data.all isPySpace then (.bad_request "name required", st)
  else
    match st.registry.find? (fun e => e.name = name) with
    | some e => (.already_forwarding e.port, st)
    | none =>
      match (match local_port with | some lp => some lp | none => env.free_port) with
      | none => (.port_exhausted, st)
      | some lp =>
        let pid := env.spawn_pid
        if env.readiness then
          (.forwarding lp,
           { registry := ⟨name, pid, lp⟩ :: st.registry, procs := pid :: st.procs })
        else
          -- the child is spawned, then `_kill_pid` reaps it before raising
          (.spawn_failed "Failed to start port-forward", st)

/-! ## Helper lemmas -/

theorem mem_stripChars {c : Char} {l : List Char} (h : c ∈ stripChars l) : c ∈ l := by
  unfold stripChars at h
  rw [List.mem_reverse] at h
  have h2 := (List.dropWhile_sublist _).subset h
  rw [List.mem_reverse] at h2
  exact (List.dropWhile_sublist _).subset h2

theorem mem_dropLast2 {c : Char} {l : List Char} (h : c ∈ dropLast2 l) : c ∈ l := by
  unfold dropLast2 at h
  exact l.dropLast_sublist.subset (l.dropLast.dropLast_sublist.subset h)

theorem pyInt_nonneg {l : List Char} (hm : '-' ∉ l) {v : Int} (h : pyInt l = some v) :
    0 ≤ v := by
  unfold pyInt at h
  split at h
  · rename_i rest heq
    exact absurd (mem_stripChars (by rw [heq]; exact List.mem_cons_self _ _)) hm
  · split at h
    · cases h; exact Int.natCast_nonneg _
    · cases h
  · split at h
    · cases h; exact Int.natCast_nonneg _
    · cases h

theorem pyFloat_nonneg_num {l : List Char} (hm : '-' ∉ l) {n : Int} {e : Nat}
    (h : pyFloat l = some (n, e)) : 0 ≤ n := by
  unfold pyFloat at h
  split at h
  · rename_i rest heq
    exact absurd (mem_stripChars (by rw [heq]; exact List.mem_cons_self _ _)) hm
  · obtain ⟨p, -, hp2⟩ := Option.map_eq_some'.mp h
    obtain ⟨rfl, -⟩ := Prod.mk.injEq .. ▸ Prod.mk.inj hp2
    exact Int.natCast_nonneg _
  · obtain ⟨p, -, hp2⟩ := Option.map_eq_some'.mp h
    obtain ⟨rfl, -⟩ := Prod.mk.injEq .. ▸ Prod.mk.inj hp2
    exact Int.natCast_nonneg _

theorem parseCpuChars_nonneg {l : List Char} (hm : '-' ∉ l) {v : Int}
    (h : parseCpuChars l = some v) : 0 ≤ v := by
  unfold parseCpuChars at h
  split at h
  · cases h; exact le_refl 0
  · split at h
    · exact pyInt_nonneg (fun hmem => hm (l.dropLast_sublist.subset hmem)) h
    · split at h
      · rename_i n e heq
        cases h
        exact Int.tdiv_nonneg
          (mul_nonneg (pyFloat_nonneg_num hm heq) (by norm_num))
          (pow_nonneg (by norm_num) _)
      · cases h

theorem mapped_pyInt_nonneg {t : List Char} (hm : '-' ∉ t) {f : Int → Int}
    (hf : ∀ n : Int, 0 ≤ n → 0 ≤ f n) {v : Int}
    (h : (pyInt t).map f = some v) : 0 ≤ v := by
  obtain ⟨n, hn, rfl⟩ := Option.map_eq_some'.mp h
  exact hf n (pyInt_nonneg hm hn)

theorem parseMemoryChars_nonneg {l : List Char} (hm : '-' ∉ l) {v : Int}
    (h : parseMemoryChars l = some v) : 0 ≤ v := by
  have hms : '-' ∉ stripChars l := fun hmem => hm (mem_stripChars hmem)
  have hmd : '-' ∉ dropLast2 (stripChars l) :=
    fun hmem => hms (mem_dropLast2 hmem)
  unfold parseMemoryChars at h
  dsimp only at h
  split at h
  · cases h; exact le_refl 0
  · split at h
    · exact mapped_pyInt_nonneg hmd
        (fun n hn => Int.tdiv_nonneg hn (by norm_num)) h
    · split at h
      · exact pyInt_nonneg hmd h
      · split at h
        · exact mapped_pyInt_nonneg hmd
            (fun n hn => mul_nonneg hn (by norm_num)) h
        · split at h
          · exact mapped_pyInt_nonneg hmd
              (fun n hn => mul_nonneg hn (by norm_num)) h
          · exact mapped_pyInt_nonneg hms
              (fun n hn => Int.tdiv_nonneg hn (by norm_num)) h

theorem parseStorageChars_nonneg {l : List Char} (hm : '-' ∉ l) {v : Int}
    (h : parseStorageChars l = some v) : 0 ≤ v := by
  have hms : '-' ∉ stripChars l := fun hmem => hm (mem_stripChars hmem)
  have hmd : '-' ∉ dropLast2 (stripChars l) :=
    fun hmem => hms (mem_dropLast2 hmem)
  unfold parseStorageChars at h
  dsimp only at h
  split at h
  · cases h; exact le_refl 0
  · split at h
    · exact mapped_pyInt_nonneg hmd
        (fun n hn => Int.tdiv_nonneg hn (by norm_num)) h
    · split at h
      · exact mapped_pyInt_nonneg hmd
          (fun n hn => Int.tdiv_nonneg hn (by norm_num)) h
      · split at h
        · exact pyInt_nonneg hmd h
        · split at h
          · exact mapped_pyInt_nonneg hmd
              (fun n hn => mul_nonneg hn (by norm_num)) h
          · exact mapped_pyInt_nonneg hms
              (fun n hn => Int.tdiv_nonneg hn (by norm_num)) h

/-! ## Claim theorems -/

/-- C8: the quantity parsers compute `parseCpu("500m") = 500`,
`parseCpu("1") = 1000`, `parseCpu("0") = 0`, `parseCpu("") = 0`,
`parseCpu("bogus")` raises, `parseMemory("2Gi") = 2048`,
`parseMemory("1000Ki") = 0`, `parseMemory("512Mi") = 512`,
`parseStorage("1024Mi") = 1`, `parseStorage("10Gi") = 10`. -/
theorem C8_parser_values :
    _parse_cpu_to_millicores "500m" = some 500 ∧
    _parse_cpu_to_millicores "1" = some 1000 ∧
    _parse_cpu_to_millicores "0" = some 0 ∧
    _parse_cpu_to_millicores "" = some 0 ∧
    _parse_cpu_to_millicores "bogus" = none ∧
    _parse_memory_to_mi "2Gi" = some 2048 ∧
    _parse_memory_to_mi "1000Ki" = some 0 ∧
    _parse_memory_to_mi "512Mi" = some 512 ∧
    _parse_storage_to_gi "1024Mi" = some 1 ∧
    _parse_storage_to_gi "10Gi" = some 10 := by decide

/-- C4 counterexample: a negative numeric prefix is not a parse error —
all three parsers accept it and return a negative scalar
(Python `int("-500")` succeeds). -/
theorem C4_counterexample :
    _parse_cpu_to_millicores "-500m" = some (-500) ∧
    _parse_memory_to_mi "-2Gi" = some (-2048) ∧
    _parse_storage_to_gi "-10Gi" = some (-10) := by decide

/-- C4 (amended): for every input string containing no minus sign on which
`parseCpu`, `parseMemory` or `parseStorage` succeeds, the returned scalar is
non-negative; an input with a negative numeric prefix parses to a negative
value rather than being rejected. -/
theorem C4_parse_nonneg_without_minus (s : String) (hm : '-' ∉ s.data) :
    (∀ v, _parse_cpu_to_millicores s = some v → 0 ≤ v) ∧
    (∀ v, _parse_memory_to_mi s = some v → 0 ≤ v) ∧
    (∀ v, _parse_storage_to_gi s = some v → 0 ≤ v) :=
  ⟨fun _ h => parseCpuChars_nonneg hm h,
   fun _ h => parseMemoryChars_nonneg hm h,
   fun _ h => parseStorageChars_nonneg hm h⟩

/-- Witness for C4 (amended) at the concrete input `"500m"`. -/
theorem C4_witness :
    '-' ∉ "500m".data ∧
    (_parse_cpu_to_millicores "500m" = some 500 → (0 : Int) ≤ 500) :=
  ⟨by decide, fun h => (C4_parse_nonneg_without_minus "500m" (by decide)).1 500 h⟩

/-! ## Admission-decision lemmas and claims C5, C6, C2 -/

theorem admission_issues_nil (avail : Triple) (q : ℚ) (m s : Int) :
    admission_issues avail q m s = [] ↔
      (cpuCoresToMillicores q ≤ avail.cpu_millicores ∧ m ≤ avail.memory_mi ∧
        s ≤ avail.storage_gi) := by
  unfold admission_issues
  by_cases h1 : cpuCoresToMillicores q > avail.cpu_millicores <;>
    by_cases h2 : m > avail.memory_mi <;>
      by_cases h3 : s > avail.storage_gi <;>
        simp [h1, h2, h3] <;> omega

theorem mem_admission_issues (avail : Triple) (q : ℚ) (m s : Int) :
    (Axis.cpu ∈ admission_issues avail q m s ↔
      cpuCoresToMillicores q > avail.cpu_millicores) ∧
    (Axis.memory ∈ admission_issues avail q m s ↔ m > avail.memory_mi) ∧
    (Axis.storage ∈ admission_issues avail q m s ↔ s > avail.storage_gi) := by
  unfold admission_issues
  by_cases h1 : cpuCoresToMillicores q > avail.cpu_millicores <;>
    by_cases h2 : m > avail.memory_mi <;>
      by_cases h3 : s > avail.storage_gi <;>
        simp [h1, h2, h3]

/-- C5: with a successfully computed capacity snapshot, the admission check
accepts iff each of the three axes (requested, converted to canonical
units) is at most the snapshot's available value; acceptance coincides with
an empty shortfall list, and each axis appears in the shortfall list iff
that axis's request exceeds its available value, independently of the
others. -/
theorem C5_admission_decision (c : Cluster) (r : Resources) (cpu_cores : ℚ)
    (memory_mi storage_gi : Int) (h : get_cluster_resources c = .ok r) :
    ((check_resources_available c cpu_cores memory_mi storage_gi).available = true ↔
      (cpuCoresToMillicores cpu_cores ≤ r.available.cpu_millicores ∧
       memory_mi ≤ r.available.memory_mi ∧
       storage_gi ≤ r.available.storage_gi)) ∧
    ((check_resources_available c cpu_cores memory_mi storage_gi).available = true ↔
      (check_resources_available c cpu_cores memory_mi storage_gi).issues = []) ∧
    (Axis.cpu ∈ (check_resources_available c cpu_cores memory_mi storage_gi).issues ↔
      cpuCoresToMillicores cpu_cores > r.available.cpu_millicores) ∧
    (Axis.memory ∈ (check_resources_available c cpu_cores memory_mi storage_gi).issues ↔
      memory_mi > r.available.memory_mi) ∧
    (Axis.storage ∈ (check_resources_available c cpu_cores memory_mi storage_gi).issues ↔
      storage_gi > r.available.storage_gi) := by
  have hiff := admission_issues_nil r.available cpu_cores memory_mi storage_gi
  obtain ⟨hc, hm, hs⟩ := mem_admission_issues r.available cpu_cores memory_mi storage_gi
  unfold check_resources_available
  rw [h]
  dsimp only
  by_cases he : admission_issues r.available cpu_cores memory_mi storage_gi = []
  · rw [if_pos (by simp [List.isEmpty_iff, he])]
    exact ⟨by simp [hiff.mp he], by simp [he], hc, hm, hs⟩
  · rw [if_neg (by simp [List.isEmpty_iff, he])]
    exact ⟨by simp [← hiff, he], by simp [he], hc, hm, hs⟩

/-- A healthy single-node cluster with no tenant pods. -/
def sampleNode : NodeAlloc := ⟨"4", "8Gi", "100Gi"⟩

/-- A healthy single-node cluster with no tenant pods. -/
def sampleCluster : Cluster := ⟨true, [sampleNode], [], false, .ok, .ok⟩

/-- Witness for C5 at a concrete snapshot and request. -/
theorem C5_witness :
    (check_resources_available sampleCluster 1 256 1).available = true := by
  have h := C5_admission_decision sampleCluster
    ⟨⟨4000, 8192, 100⟩, ⟨0, 0, 0⟩, ⟨4000, 8192, 100⟩⟩ 1 256 1 rfl
  exact h.1.mpr (by decide)

/-- C6: when the capacity snapshot cannot be obtained, the admission check
returns a structured rejection — accepted = false with a single message
describing the accounting failure, no per-axis shortfalls and empty
details — rather than propagating the underlying exception. -/
theorem C6_admission_structured_failure (c : Cluster) (cpu_cores : ℚ)
    (memory_mi storage_gi : Int) (e : String)
    (h : get_cluster_resources c = .error e) :
    check_resources_available c cpu_cores memory_mi storage_gi =
      ⟨false, "Failed to check cluster resources: " ++ e, [], none⟩ := by
  unfold check_resources_available
  rw [h]

/-- A cluster whose client initialization fails. -/
def downCluster : Cluster := ⟨false, [], [], false, .ok, .ok⟩

/-- Witness for C6 at a concrete unreachable cluster. -/
theorem C6_witness :
    check_resources_available downCluster 1 256 1 =
      ⟨false, "Failed to check cluster resources: could not load kube config",
        [], none⟩ :=
  C6_admission_structured_failure downCluster 1 256 1 _ rfl

/-- Two healthy nodes whose allocatables differ. -/
def nodeA : NodeAlloc := ⟨"1", "1Gi", "10Gi"⟩

/-- Two healthy nodes whose allocatables differ. -/
def nodeB : NodeAlloc := ⟨"2", "2Gi", "20Gi"⟩

/-- A reachable cluster with two nodes and no pods. -/
def twoNodeCluster : Cluster := ⟨true, [nodeA, nodeB], [], false, .ok, .ok⟩

/-- C2 counterexample: with two nodes the snapshot's total is the first
node's allocatable (`nodes[0]`), not the component-wise sum over all
nodes, which would be `⟨3000, 3072, 30⟩`. -/
theorem C2_counterexample :
    (get_cluster_resources twoNodeCluster).toOption.map Resources.total =
      some ⟨1000, 1024, 10⟩ ∧
    specTotalAllNodes twoNodeCluster.nodes = some ⟨3000, 3072, 30⟩ := by decide

/-- C2 (amended): the snapshot's total is the parsed allocatable of the
first listed node only; snapshot computation fails with an unreachable
error rather than returning a capacity when the node list cannot be
obtained or is empty. -/
theorem C2_total_first_node (c : Cluster) :
    (c.reachable = false →
      get_cluster_resources c = .error "could not load kube config") ∧
    (c.reachable = true → c.nodes = [] →
      get_cluster_resources c = .error "No nodes found in cluster") ∧
    (∀ node rest t u, c.reachable = true → c.nodes = node :: rest →
      parseTriple node.cpu node.memory node.ephemeral_storage = some t →
      usedSum c.pods = some u →
      get_cluster_resources c = .ok ⟨t, u, t.sub u⟩) := by
  refine ⟨?_, ?_, ?_⟩
  · intro hr; unfold get_cluster_resources; simp [hr]
  · intro hr hn; unfold get_cluster_resources; simp [hr, hn]
  · intro node rest t u hr hn ht hu
    unfold get_cluster_resources
    simp [hr, hn, ht, hu]

/-- Witness for C2 (amended) at a concrete one-node cluster. -/
theorem C2_witness :
    get_cluster_resources sampleCluster =
      .ok ⟨⟨4000, 8192, 100⟩, ⟨0, 0, 0⟩,
        Triple.sub ⟨4000, 8192, 100⟩ ⟨0, 0, 0⟩⟩ :=
  (C2_total_first_node sampleCluster).2.2 sampleNode [] ⟨4000, 8192, 100⟩
    ⟨0, 0, 0⟩ rfl rfl (by decide) (by decide)

/-! ## Claims C1, C3, C7 — endpoint behaviour -/

/-- A concrete tenant spec. -/
def specAlice : StudentSpec := ⟨"alice", 1, 256, 1⟩

/-- C1 counterexample: the deploy operation persists and deploys the spec
with no admission check — its trace contains a persist event but no
admission-check event. -/
theorem C1_counterexample :
    Event.db_save "alice" "pending" ∈ (deploy sampleCluster specAlice).2 ∧
    Event.admission_check ∉ (deploy sampleCluster specAlice).2 := by decide

/-- C1 (amended): only the submit operation performs the admission check
before persisting — a rejected check ends the request with nothing
persisted (the trace is just the admission check), and no persist or
deploy event precedes the check in any submit trace; the deploy and
deploy-from-db operations persist and deploy without ever invoking the
admission check. -/
theorem C1_admission_only_in_submit (c : Cluster) (spec : StudentSpec)
    (db : List StudentDoc) (nm : String) :
    ((check_resources_available c spec.cpu spec.memory spec.storage).available
        = false →
      (submit c spec).2 = [Event.admission_check]) ∧
    admissionBefore (submit c spec).2 = true ∧
    Event.admission_check ∉ (deploy c spec).2 ∧
    Event.admission_check ∉ (deploy_from_db c db nm).2 := by
  refine ⟨?_, ?_, ?_, ?_⟩
  · intro hrc
    unfold submit
    dsimp only
    rw [hrc]
    rfl
  · unfold submit
    dsimp only
    split <;> rfl
  · unfold deploy deployCreate
    repeat' (first | split | dsimp only)
    all_goals simp
  · unfold deploy_from_db deployCreate
    repeat' (first | split | dsimp only)
    all_goals simp

/-- Witness for C1 (amended): at an unreachable cluster the check is
rejected and the submit trace persists nothing. -/
theorem C1_witness :
    (check_resources_available downCluster (1 : ℚ) 256 1).available = false ∧
    (submit downCluster specAlice).2 = [Event.admission_check] := by
  have h := C1_admission_only_in_submit downCluster specAlice [] "alice"
  exact ⟨by decide, h.1 (by decide)⟩

/-- A persisted record for the concrete tenant. -/
def docAlice : StudentDoc := ⟨"alice", "pending", some "1", some "256Mi", some "1Gi"⟩

/-- A reachable cluster whose per-pod status queries raise (transport
failure after successful client initialization). -/
def flakyCluster : Cluster := ⟨true, [sampleNode], [], true, .ok, .ok⟩

/-- C3 counterexample: in bulk resync, when a record's live phase cannot be
observed because the status query raises, the pending record is
transitioned to failed — it is not left pending. -/
theorem C3_counterexample :
    Event.db_update "alice" "failed" (some "Cannot check pod status") ∈
      (admin_students flakyCluster [docAlice]).2 := by decide

/-- C3 (amended): when the cluster is unreachable at client
initialization, deploy-from-db sets the persisted status to pending with a
"Cluster unreachable" annotation (never failed), and bulk resync marks
every record's live-phase view "Cluster Down" without mutating any
persisted status; a per-record status-query failure during bulk resync
after successful initialization, however, marks a pending record failed. -/
theorem C3_unreachable_handling (c : Cluster) (db : List StudentDoc)
    (nm : String) (hr : c.reachable = false) :
    (∀ doc, db.find? (fun d => d.name = nm) = some doc →
      pyInt (removeGi (doc.k8s_storage.getD "1Gi").data) ≠ none →
      doc.k8s_cpu.getD "" ≠ "" → doc.k8s_memory.getD "" ≠ "" →
      (deploy_from_db c db nm).2 =
        [.k8s_get_pod nm nm,
         .db_update nm "pending"
           (some "Cluster unreachable: could not load kube config")]) ∧
    (admin_students c db).2 = [] ∧
    (admin_students c db).1 =
      db.map (fun d => ⟨d.name, d.status, "Cluster Down", d.status⟩) := by
  refine ⟨?_, ?_, ?_⟩
  · intro doc hfind hstor hcpu hmem
    unfold deploy_from_db
    rw [hfind]
    dsimp only
    cases hpy : pyInt (removeGi (doc.k8s_storage.getD "1Gi").data) with
    | none => exact absurd hpy hstor
    | some n =>
      dsimp only
      rw [if_neg (by simp [hcpu, hmem])]
      simp [get_pod_status, hr]
  · unfold admin_students syncOne
    simp [hr]
  · unfold admin_students syncOne
    simp [hr]

/-- Witness for C3 (amended) at a concrete unreachable cluster. -/
theorem C3_witness :
    (deploy_from_db downCluster [docAlice] "alice").2 =
      [.k8s_get_pod "alice" "alice",
       .db_update "alice" "pending"
         (some "Cluster unreachable: could not load kube config")] ∧
    (admin_students downCluster [docAlice]).2 = [] := by
  have h := C3_unreachable_handling downCluster [docAlice] "alice" rfl
  exact ⟨h.1 docAlice (by decide) (by decide) (by decide) (by decide), h.2.1⟩

/-- C7: a deploy for a tenant whose pod exists in any phase other than
"Not Found" is rejected as a conflict with nothing persisted or created,
and namespace/pod creation calls that report "already exists" (409
Conflict) are treated as success rather than escalated. -/
theorem C7_conflict_and_idempotent_create (c : Cluster) (spec : StudentSpec)
    (ph : String) (hok : get_pod_status c spec.name spec.name = .ok ph)
    (hph : ph ≠ "Not Found") :
    deploy c spec =
      (.conflict409 ("Pod already exists with status: " ++ ph),
       [.k8s_get_pod spec.name spec.name]) ∧
    (∀ c' : Cluster, c'.reachable = true → ∀ ns nm : String,
      (c'.ns_create = .conflict → create_namespace c' ns = .ok ()) ∧
      (c'.pod_create = .conflict → create_pod c' ns nm = .ok ())) := by
  constructor
  · unfold deploy
    rw [hok]
    simp [hph]
  · intro c' hr ns nm
    constructor <;> intro hcf
    · unfold create_namespace; simp [hr, hcf]
    · unfold create_pod; simp [hr, hcf]

/-- A cluster where the tenant pod is already Running and the API reports
Conflict for both creations. -/
def podAlice : PodInfo := ⟨"alice", "alice-pod", "Running", []⟩

/-- A cluster where the tenant pod is already Running and the API reports
Conflict for both creations. -/
def busyCluster : Cluster := ⟨true, [sampleNode], [podAlice], false, .conflict, .conflict⟩

/-- Witness for C7 at a concrete cluster with an existing Running pod. -/
theorem C7_witness :
    deploy busyCluster specAlice =
      (.conflict409 ("Pod already exists with status: " ++ "Running"),
       [.k8s_get_pod "alice" "alice"]) ∧
    create_namespace busyCluster "stu2" = .ok () ∧
    create_pod busyCluster "stu2" "stu2" = .ok () := by
  have h := C7_conflict_and_idempotent_create busyCluster specAlice "Running"
    rfl (by decide)
  exact ⟨h.1, (h.2 busyCluster rfl "stu2" "stu2").1 rfl,
    (h.2 busyCluster rfl "stu2" "stu2").2 rfl⟩

/-! ## Claims C9, C10 — forward supervisor -/

/-- C9: starting the forward supervisor twice in a row with the same tenant
name returns the identical local port both times and results in exactly one
spawned child process: the first call spawns one child and records the
session, the second call finds the registry entry, returns its port
unchanged, and changes nothing. -/
theorem C9_start_idempotent (env1 env2 : PFEnv) (st : PFState) (name : String)
    (lp : Nat)
    (hname : name.data.all isPySpace = false)
    (hnew : st.registry.find? (fun e => e.name = name) = none)
    (hport : env1.free_port = some lp)
    (hready : env1.readiness = true) :
    (pf_start env1 st name none).1 = .forwarding lp ∧
    ((pf_start env1 st name none).2).procs = env1.spawn_pid :: st.procs ∧
    (pf_start env2 (pf_start env1 st name none).2 name none).1 =
      .already_forwarding lp ∧
    (pf_start env2 (pf_start env1 st name none).2 name none).2 =
      (pf_start env1 st name none).2 := by
  have h1 : pf_start env1 st name none =
      (.forwarding lp,
       ⟨⟨name, env1.spawn_pid, lp⟩ :: st.registry, env1.spawn_pid :: st.procs⟩) := by
    unfold pf_start
    rw [hname, hnew, hport]
    simp [hready]
  have h2 : pf_start env2
      (⟨⟨name, env1.spawn_pid, lp⟩ :: st.registry, env1.spawn_pid :: st.procs⟩ : PFState)
      name none =
      (.already_forwarding lp,
       ⟨⟨name, env1.spawn_pid, lp⟩ :: st.registry, env1.spawn_pid :: st.procs⟩) := by
    unfold pf_start
    rw [hname]
    simp [List.find?]
  rw [h1]
  exact ⟨rfl, rfl, by rw [h2], by rw [h2]⟩

/-- A one-session registry whose recorded child has already exited. -/
def stalePF : PFState := ⟨[⟨"alice", 42, 8001⟩], []⟩

/-- Witness for C9 at a concrete environment and empty initial state. -/
theorem C9_witness :
    (pf_start ⟨some 8001, 42, true⟩ ⟨[], []⟩ "alice" none).1 = .forwarding 8001 ∧
    ((pf_start ⟨some 8001, 42, true⟩ ⟨[], []⟩ "alice" none).2).procs = [42] ∧
    (pf_start ⟨some 8002, 77, false⟩
      (pf_start ⟨some 8001, 42, true⟩ ⟨[], []⟩ "alice" none).2 "alice" none).1 =
      .already_forwarding 8001 ∧
    (pf_start ⟨some 8002, 77, false⟩
      (pf_start ⟨some 8001, 42, true⟩ ⟨[], []⟩ "alice" none).2 "alice" none).2 =
      (pf_start ⟨some 8001, 42, true⟩ ⟨[], []⟩ "alice" none).2 :=
  C9_start_idempotent ⟨some 8001, 42, true⟩ ⟨some 8002, 77, false⟩ ⟨[], []⟩
    "alice" 8001 (by decide) rfl rfl rfl

/-- C10: an existing registry file alone makes start return the stored
port: even when the recorded process is no longer a live child, start
returns already-forwarding with the stored port, spawns nothing, and
leaves all state unchanged — process liveness is never consulted. -/
theorem C10_stale_registry_short_circuit (env : PFEnv) (st : PFState)
    (name : String) (e : PFEntry) (lp : Option Nat)
    (hname : name.data.all isPySpace = false)
    (hfound : st.registry.find? (fun x => x.name = name) = some e)
    (hdead : e.pid ∉ st.procs) :
    pf_start env st name lp = (.already_forwarding e.port, st) := by
  unfold pf_start
  rw [hname, hfound]
  rfl

/-- Witness for C10 at a concrete stale registry entry. -/
theorem C10_witness :
    pf_start ⟨some 8005, 99, true⟩ stalePF "alice" none =
      (.already_forwarding 8001, stalePF) :=
  C10_stale_registry_short_circuit ⟨some 8005, 99, true⟩ stalePF "alice"
    ⟨"alice", 42, 8001⟩ none (by decide) rfl (by decide)
